import Mathlib

/-!
Verification of the signal-lifecycle, subscription and payment logic of
src/app/main.py (a Telegram forex-signal bot backed by a SQLite store).

Modelling conventions:
* UTC timestamps (stored as ISO-8601 TEXT in the database) are modelled by
  their value in seconds as an Int; a TEXT column that is NULL or fails
  parse_iso is modelled as none, so parse_iso becomes the identity on this
  representation.  relativedelta(days=30) on timezone-aware UTC datetimes
  adds exactly 30*86400 seconds.
* Each SQLite table is a list of row records plus a nextId counter for
  AUTOINCREMENT primary keys (AUTOINCREMENT ids start at 1).
* Each async DB helper becomes a pure function from store state to
  (result, new store state); a single SQL statement is one atomic step.
-/

namespace ForexBot

/-! ### users table -/

structure UserRow where
  tg_id : Int
  username : Option String
  free_left : Int
  sub_until : Option Int
  created_at : Int
deriving DecidableEq

abbrev UserStore := List UserRow

/-- has_active_sub: the stored sub_until parses and is strictly after now. -/
def has_active_sub (sub_until : Option Int) (now : Int) : Bool :=
  match sub_until with
  | none => false
  | some d => now < d

/-- user_status: SELECT free_left, sub_until FROM users WHERE tg_id=?;
    a missing row yields the default (5, None). -/
def user_status (st : UserStore) (tg : Int) : Int × Option Int :=
  match st.find? (fun u => u.tg_id == tg) with
  | none => (5, none)
  | some u => (u.free_left, u.sub_until)

/-- decrement_free_if_needed: return unchanged when the subscription is
    active or the free counter is not positive; otherwise run
    UPDATE users SET free_left = free_left - 1 WHERE tg_id=?. -/
def decrement_free_if_needed (st : UserStore) (now : Int) (tg : Int) : UserStore :=
  let s := user_status st tg
  if has_active_sub s.2 now then st
  else if s.1 ≤ 0 then st
  else st.map (fun u => if u.tg_id == tg then { u with free_left := u.free_left - 1 } else u)

/-- Thirty days in seconds, the exact effect of relativedelta(days=30)
    on a timezone-aware UTC datetime. -/
def day30 : Int := 30 * 86400

/-- The parsed sub_until of the requested user row, as read by
    extend_subscription_30d: parse_iso(row[0]) if row else None. -/
def sub_current (st : UserStore) (tg : Int) : Option Int :=
  (st.find? (fun u => u.tg_id == tg)).bind (fun u => u.sub_until)

/-- extend_subscription_30d: base is the current expiry when it is strictly
    in the future, otherwise now; the new expiry is base plus 30 days and is
    written back with UPDATE users SET sub_until=? WHERE tg_id=?. -/
def extend_subscription_30d (st : UserStore) (now : Int) (tg : Int) : Int × UserStore :=
  let current := sub_current st tg
  let base := match current with
    | some c => if now < c then c else now
    | none => now
  let new_until := base + day30
  (new_until,
    st.map (fun u => if u.tg_id == tg then { u with sub_until := some new_until } else u))

/-! ### payments table -/

structure PaymentRow where
  id : Nat
  tg_id : Int
  tx_hash : String
  amount_usdt : Option Rat
  status : String
  reason : Option String
  created_at : Int
  verified_at : Option Int
deriving DecidableEq

structure PaymentStore where
  rows : List PaymentRow
  nextId : Nat
deriving DecidableEq

def emptyPaymentStore : PaymentStore := { rows := [], nextId := 1 }

/-- Python str.lower() as used on tx hashes: characterwise ASCII lowering of
    the character list of the string.  Tx hashes reaching add_payment match
    TX_RE (0x plus 64 hex digits), so they are ASCII and this agrees with
    Python semantics. -/
def lowerAscii (s : String) : String := ⟨s.data.map Char.toLower⟩

/-- True when a row with this exact tx_hash TEXT already exists: the UNIQUE
    constraint on payments.tx_hash compares the stored text verbatim. -/
def paymentExists (st : PaymentStore) (hash : String) : Bool :=
  st.rows.any (fun p => p.tx_hash == hash)

/-- The row INSERTed by add_payment: tg_id, the lowercased tx hash, status
    PENDING, created_at now, everything else NULL. -/
def pendingRow (id : Nat) (tg : Int) (hash : String) (now : Int) : PaymentRow :=
  { id := id, tg_id := tg, tx_hash := hash, amount_usdt := none,
    status := "PENDING", reason := none, created_at := now, verified_at := none }

/-- add_payment: INSERT INTO payments (tg_id, tx_hash, status, created_at)
    VALUES (?, tx_hash.lower(), PENDING, now); a duplicate tx_hash raises
    IntegrityError, which is caught and reported as False with no row
    written. -/
def add_payment (st : PaymentStore) (now : Int) (tg : Int) (tx_hash : String) :
    Bool × PaymentStore :=
  let h := lowerAscii tx_hash
  if paymentExists st h then (false, st)
  else
    (true,
      { rows := st.rows ++ [pendingRow st.nextId tg h now],
        nextId := st.nextId + 1 })

/-! ### signals table -/

/-- Python str.upper() as used on symbol, timeframe and direction:
    characterwise ASCII raising of the character list of the string. -/
def upperAscii (s : String) : String := ⟨s.data.map Char.toUpper⟩

structure SignalRow where
  id : Nat
  symbol : String
  timeframe : String
  direction : String
  entry : String
  tp : String
  sl : String
  note : Option String
  status : String
  sent_at : Int
  closed_at : Option Int
  close_reason : Option String
  closed_by : Option Int
deriving DecidableEq

structure SignalStore where
  rows : List SignalRow
  nextId : Nat
deriving DecidableEq

def emptySignalStore : SignalStore := { rows := [], nextId := 1 }

/-- The WHERE clause symbol=? AND status=ACTIVE of the gating queries. -/
def isActiveFor (sym : String) (r : SignalRow) : Bool :=
  r.symbol == sym && r.status == "ACTIVE"

/-- The SELECT id FROM signals WHERE symbol=? AND status=ACTIVE LIMIT 1
    check of create_active_signal, as an existence test. -/
def existsActive (st : SignalStore) (sym : String) : Bool :=
  st.rows.any (isActiveFor sym)

/-- How many ACTIVE rows the store holds for a symbol. -/
def activeCount (st : SignalStore) (sym : String) : Nat :=
  st.rows.countP (isActiveFor sym)

/-- get_active_signal: the newest ACTIVE row for the uppercased symbol
    (ORDER BY id DESC LIMIT 1). -/
def get_active_signal (st : SignalStore) (symbol : String) : Option SignalRow :=
  ((st.rows.filter (isActiveFor (upperAscii symbol))).reverse).head?

/-- The row INSERTed by create_active_signal: symbol, timeframe and
    direction are uppercased, entry/tp/sl/note stored verbatim, status
    ACTIVE, close fields NULL. -/
def mkSignalRow (id : Nat) (now : Int)
    (symbol timeframe direction entry tp sl : String) (note : Option String) :
    SignalRow :=
  { id := id, symbol := upperAscii symbol, timeframe := upperAscii timeframe,
    direction := upperAscii direction, entry := entry, tp := tp, sl := sl,
    note := note, status := "ACTIVE", sent_at := now,
    closed_at := none, close_reason := none, closed_by := none }

/-- create_active_signal: re-check that no ACTIVE row exists for the
    uppercased symbol; if one does, return None with no write; otherwise
    INSERT the new ACTIVE row and return last_insert_rowid(). -/
def create_active_signal (st : SignalStore) (now : Int)
    (symbol timeframe direction entry tp sl : String) (note : Option String) :
    Option Nat × SignalStore :=
  let sym := upperAscii symbol
  if existsActive st sym then (none, st)
  else
    (some st.nextId,
      { rows := st.rows ++ [mkSignalRow st.nextId now symbol timeframe direction entry tp sl note],
        nextId := st.nextId + 1 })

/-- The row transformation of the UPDATE in close_signal: a row matching
    id=? AND status=ACTIVE gets status CLOSED and its close fields set;
    every other row is left untouched. -/
def closeRow (now : Int) (sig_id : Nat) (reason : String) (closed_by : Int)
    (r : SignalRow) : SignalRow :=
  if r.id == sig_id && r.status == "ACTIVE" then
    { r with status := "CLOSED", closed_at := some now,
             close_reason := some reason, closed_by := some closed_by }
  else r

/-- close_signal together with the number of rows matched by the UPDATE
    WHERE clause (the rowcount of the statement; 0 when the target is not
    ACTIVE, used below to count which racing close effected the
    transition). -/
def close_signal_count (st : SignalStore) (now : Int) (sig_id : Nat)
    (reason : String) (closed_by : Int) : SignalStore × Nat :=
  ({ rows := st.rows.map (closeRow now sig_id reason closed_by), nextId := st.nextId },
    st.rows.countP (fun r => r.id == sig_id && r.status == "ACTIVE"))

/-- close_signal: UPDATE signals SET status=CLOSED, closed_at=?,
    close_reason=?, closed_by=? WHERE id=? AND status=ACTIVE. -/
def close_signal (st : SignalStore) (now : Int) (sig_id : Nat)
    (reason : String) (closed_by : Int) : SignalStore :=
  (close_signal_count st now sig_id reason closed_by).1

/-- get_signal_by_id: SELECT ... FROM signals WHERE id=?. -/
def get_signal_by_id (st : SignalStore) (sig_id : Nat) : Option SignalRow :=
  st.rows.find? (fun r => r.id == sig_id)

inductive CloseOutcome where
  | closedOk
  | notFound
  | alreadyClosed
deriving DecidableEq

/-- One close notification as delivered to one user: recipient, symbol of
    the closed signal, close reason. -/
abbrev CloseEvent := Int × String × String

/-- The close:id:reason callback handler: look the signal up by id; reject
    when missing or not ACTIVE (with no write and no notification);
    otherwise run close_signal and broadcast one close notification to
    every user in the users table. -/
def close_inline (st : SignalStore) (users : List Int) (now : Int)
    (sig_id : Nat) (reason : String) (admin : Int) :
    SignalStore × List CloseEvent × CloseOutcome :=
  match get_signal_by_id st sig_id with
  | none => (st, [], .notFound)
  | some row =>
    if row.status == "ACTIVE" then
      (close_signal st now sig_id reason admin,
        users.map (fun u => (u, row.symbol, reason)), .closedOk)
    else (st, [], .alreadyClosed)

/-! ### admin draft parsing (make_draft) -/

/-- ASCII whitespace stripped by Python str.strip() on draft fields. -/
def isSpaceChar (c : Char) : Bool :=
  c == ' ' || c == '\t' || c == '\n' || c == '\r'

/-- Python str.strip() on an ASCII draft field. -/
def stripAscii (s : String) : String :=
  ⟨((s.data.dropWhile isSpaceChar).reverse.dropWhile isSpaceChar).reverse⟩

/-- Splitting a character list at every semicolon, keeping empty pieces:
    the semantics of Python str.split on a one-character separator. -/
def splitSemiAux : List Char → List Char → List (List Char)
  | [], acc => [acc.reverse]
  | c :: rest, acc =>
    if c == ';' then acc.reverse :: splitSemiAux rest []
    else splitSemiAux rest (c :: acc)

/-- Python text.split for the semicolon separator used by make_draft. -/
def splitSemi (s : String) : List String :=
  (splitSemiAux s.data []).map (fun cs => ⟨cs⟩)

/-- make_draft: split the admin message on semicolons and strip each field;
    reject when fewer than 6 fields or when the uppercased third field is
    neither BUY nor SELL; otherwise the draft (the parts list as parsed) is
    stored for approval.  No other validation is performed. -/
def make_draft (text : String) : Option (List String) :=
  let parts := (splitSemi text).map stripAscii
  if parts.length < 6 then none
  else
    let direction := upperAscii (parts.getD 2 "")
    if direction == "BUY" || direction == "SELL" then some parts
    else none

/-- Decimal digit-string evaluation, used to read the TEXT prices of an
    admitted signal back as numbers when stating invariant B. -/
def natOfDigitsAux : List Char → Nat → Option Nat
  | [], acc => some acc
  | c :: rest, acc =>
    if c.isDigit then natOfDigitsAux rest (acc * 10 + (c.toNat - 48)) else none

/-- Parse a nonempty all-digit string as a natural number. -/
def parseNat? (s : String) : Option Nat :=
  if s.data.isEmpty then none else natOfDigitsAux s.data 0

/-- Invariant B of the specification for a BUY signal, read on the stored
    TEXT prices as numbers: take-profit above entry above stop-loss.
    (Used only to state that the code admits signals violating it.) -/
def buyOrderingHolds (entry tp sl : String) : Bool :=
  match parseNat? entry, parseNat? tp, parseNat? sl with
  | some e, some t, some s => decide (e < t) && decide (s < e)
  | _, _, _ => false

/-! ### Fine-grained interleaving model

create_active_signal and the close handler run on an asyncio event loop:
another handler task may be scheduled at every awaited statement.  Each SQL
statement is atomic, so a call decomposes into atomic store steps: for
create, the SELECT gating check and the INSERT; for close, the SELECT by id
and the guarded UPDATE.  A schedule is a list of booleans choosing which of
two racing calls performs its next step. -/

structure CreateArgs where
  symbol : String
  timeframe : String
  direction : String
  entry : String
  tp : String
  sl : String
  note : Option String
deriving DecidableEq

inductive CreateProc where
  | start
  | passed
  | finished (result : Option Nat)
deriving DecidableEq

/-- One atomic step of create_active_signal: from start, run the gating
    SELECT and either return None (an ACTIVE row exists) or proceed; from
    passed, run the INSERT and return the new rowid.  A finished call steps
    to itself. -/
def createStep (now : Int) (a : CreateArgs) (st : SignalStore) (p : CreateProc) :
    SignalStore × CreateProc :=
  match p with
  | .start =>
    if existsActive st (upperAscii a.symbol) then (st, .finished none) else (st, .passed)
  | .passed =>
    ({ rows := st.rows ++
         [mkSignalRow st.nextId now a.symbol a.timeframe a.direction a.entry a.tp a.sl a.note],
       nextId := st.nextId + 1 },
      .finished (some st.nextId))
  | .finished r => (st, .finished r)

structure CreatePairState where
  store : SignalStore
  p1 : CreateProc
  p2 : CreateProc
deriving DecidableEq

/-- Advance the call selected by the scheduler. -/
def createStepOne (now : Int) (a1 a2 : CreateArgs) (b : Bool) (s : CreatePairState) :
    CreatePairState :=
  if b then
    let r := createStep now a2 s.store s.p2
    { store := r.1, p1 := s.p1, p2 := r.2 }
  else
    let r := createStep now a1 s.store s.p1
    { store := r.1, p1 := r.2, p2 := s.p2 }

/-- Run two racing create_active_signal calls under a schedule. -/
def runCreatePair (now : Int) (a1 a2 : CreateArgs) (sched : List Bool)
    (s : CreatePairState) : CreatePairState :=
  match sched with
  | [] => s
  | b :: rest => runCreatePair now a1 a2 rest (createStepOne now a1 a2 b s)

inductive CloseProc where
  | start
  | sawActive
  | finished (r : CloseOutcome) (changed : Nat)
deriving DecidableEq

/-- One atomic step of the close handler: from start, run the SELECT by id
    and either reject (missing row / not ACTIVE) or proceed; from
    sawActive, run the guarded UPDATE, recording how many rows it matched.
    A finished call steps to itself. -/
def closeStep (now : Int) (sig_id : Nat) (reason : String) (admin : Int)
    (st : SignalStore) (p : CloseProc) : SignalStore × CloseProc :=
  match p with
  | .start =>
    match get_signal_by_id st sig_id with
    | none => (st, .finished .notFound 0)
    | some r =>
      if r.status == "ACTIVE" then (st, .sawActive)
      else (st, .finished .alreadyClosed 0)
  | .sawActive =>
    let res := close_signal_count st now sig_id reason admin
    (res.1, .finished .closedOk res.2)
  | .finished r n => (st, .finished r n)

structure ClosePairState where
  store : SignalStore
  p1 : CloseProc
  p2 : CloseProc
deriving DecidableEq

/-- Advance the close call selected by the scheduler. -/
def closeStepOne (now1 : Int) (reason1 : String) (adm1 : Int)
    (now2 : Int) (reason2 : String) (adm2 : Int) (sig_id : Nat)
    (b : Bool) (s : ClosePairState) : ClosePairState :=
  if b then
    let r := closeStep now2 sig_id reason2 adm2 s.store s.p2
    { store := r.1, p1 := s.p1, p2 := r.2 }
  else
    let r := closeStep now1 sig_id reason1 adm1 s.store s.p1
    { store := r.1, p1 := r.2, p2 := s.p2 }

/-- Run two racing close calls on the same signal id under a schedule. -/
def runClosePair (now1 : Int) (reason1 : String) (adm1 : Int)
    (now2 : Int) (reason2 : String) (adm2 : Int) (sig_id : Nat)
    (sched : List Bool) (s : ClosePairState) : ClosePairState :=
  match sched with
  | [] => s
  | b :: rest =>
    runClosePair now1 reason1 adm1 now2 reason2 adm2 sig_id rest
      (closeStepOne now1 reason1 adm1 now2 reason2 adm2 sig_id b s)

/-- How many rows the UPDATE of a close call actually changed (0 until the
    call has run its UPDATE). -/
def changedOf : CloseProc → Nat
  | .finished _ n => n
  | _ => 0

/-- A close call that has returned. -/
def closeFinished : CloseProc → Bool
  | .finished _ _ => true
  | _ => false

/-- Rows of the store holding the given id, by count. -/
def countById (st : SignalStore) (sig_id : Nat) : Nat :=
  st.rows.countP (fun r => r.id == sig_id)

/-- ACTIVE rows of the store holding the given id, by count. -/
def activeCountById (st : SignalStore) (sig_id : Nat) : Nat :=
  st.rows.countP (fun r => r.id == sig_id && r.status == "ACTIVE")

/-! ### Reachability of signal-store states

The signals table is written only by create_active_signal (the INSERT
behind the approve gate) and close_signal (the UPDATE behind the close
buttons); every other access is a SELECT.  Reachable states are therefore
those produced from the empty table by completed (serialized) runs of these
two operations. -/

inductive SignalsReachable : SignalStore → Prop where
  | init : SignalsReachable emptySignalStore
  | create (st : SignalStore) (now : Int)
      (symbol timeframe direction entry tp sl : String) (note : Option String) :
      SignalsReachable st →
      SignalsReachable (create_active_signal st now symbol timeframe direction entry tp sl note).2
  | close (st : SignalStore) (now : Int) (sig_id : Nat) (reason : String) (closed_by : Int) :
      SignalsReachable st →
      SignalsReachable (close_signal st now sig_id reason closed_by)

/-! ### Generic list helpers -/

/-- find? commutes with mapping a function that does not disturb the
    predicate. -/
theorem find?_map_pres {α : Type} (f : α → α) (p : α → Bool) (l : List α)
    (h : ∀ x, p (f x) = p x) : (l.map f).find? p = (l.find? p).map f := by
  induction l with
  | nil => rfl
  | cons a t ih =>
    cases hp : p a with
    | true =>
      rw [List.map_cons, List.find?_cons_of_pos _ (by rw [h a]; exact hp),
        List.find?_cons_of_pos _ hp]
      rfl
    | false =>
      rw [List.map_cons, List.find?_cons_of_neg _ (by simp [h a, hp]),
        List.find?_cons_of_neg _ (by simp [hp]), ih]

/-- Mapping a function that fixes every member is the identity. -/
theorem map_eq_self_of {α : Type} (f : α → α) (l : List α)
    (h : ∀ x ∈ l, f x = x) : l.map f = l := by
  induction l with
  | nil => rfl
  | cons a t ih =>
    rw [List.map_cons, h a (List.mem_cons_self a t),
      ih (fun x hx => h x (List.mem_cons_of_mem a hx))]

/-- When no member satisfies both p and q, the first p-member fails q. -/
theorem find?_none_sat {α : Type} (l : List α) (p q : α → Bool) (r : α)
    (hcq : l.countP (fun x => p x && q x) = 0)
    (hf : l.find? p = some r) : q r = false := by
  have hm := List.mem_of_find?_eq_some hf
  have hp := List.find?_some hf
  have h := List.countP_eq_zero.mp hcq r hm
  cases hqr : q r with
  | false => rfl
  | true => exact absurd (by simp [hp, hqr]) h

/-- When exactly one member satisfies p and exactly one satisfies both p
    and q, the first p-member satisfies q. -/
theorem find?_unique_sat {α : Type} (l : List α) (p q : α → Bool) (r : α)
    (hc : l.countP p = 1) (hcq : l.countP (fun x => p x && q x) = 1)
    (hf : l.find? p = some r) : q r = true := by
  induction l with
  | nil => simp at hf
  | cons a t ih =>
    cases hp : p a with
    | true =>
      rw [List.find?_cons_of_pos _ hp] at hf
      injection hf with hr
      subst hr
      rw [List.countP_cons_of_pos _ _ hp] at hc
      have ht : t.countP p = 0 := by omega
      cases hq : q a with
      | true => rfl
      | false =>
        exfalso
        rw [List.countP_cons_of_neg _ _ (by simp [hp, hq])] at hcq
        have hpos : 0 < t.countP (fun x => p x && q x) := by omega
        obtain ⟨x, hx, hpx⟩ := List.countP_pos_iff.mp hpos
        have hxp : p x = true := by
          cases hpq : p x with
          | true => rfl
          | false => rw [hpq] at hpx; simp at hpx
        have : 0 < t.countP p := List.countP_pos_iff.mpr ⟨x, hx, hxp⟩
        omega
    | false =>
      rw [List.find?_cons_of_neg _ (by simp [hp])] at hf
      rw [List.countP_cons_of_neg _ _ (by simp [hp])] at hc
      rw [List.countP_cons_of_neg _ _ (by simp [hp])] at hcq
      exact ih hc hcq hf

/-! ### Claims about subscriptions and payments -/

/-- C8: extend_subscription_30d never discards remaining paid time: the new
    expiry equals (the current expiry when it lies strictly in the future,
    otherwise the current time) plus 30 days, so the returned expiry is
    strictly later than the current time and strictly later than any
    previously stored expiry, in particular any previously active one. -/
theorem extend_subscription_spec (st : UserStore) (now tg : Int) :
    (extend_subscription_30d st now tg).1
        = (match sub_current st tg with
           | some c => if now < c then c else now
           | none => now) + day30
    ∧ now < (extend_subscription_30d st now tg).1
    ∧ (∀ c, sub_current st tg = some c → c < (extend_subscription_30d st now tg).1) := by
  refine ⟨rfl, ?_, ?_⟩
  · show now < (match sub_current st tg with
      | some c => if now < c then c else now
      | none => now) + day30
    cases h : sub_current st tg with
    | none => simp only [day30]; omega
    | some c => simp only [day30]; split <;> omega
  · intro c hc
    show c < (match sub_current st tg with
      | some c => if now < c then c else now
      | none => now) + day30
    rw [hc]
    simp only [day30]
    split <;> omega

/-- Witness for C8 at a concrete store: user 1 has 5 free signals and an
    active subscription until 100 at now = 50. -/
theorem extend_subscription_spec_witness :
    sub_current ([⟨1, none, 5, some 100, 0⟩] : UserStore) 1 = some 100
    ∧ (50 : Int) < (extend_subscription_30d ([⟨1, none, 5, some 100, 0⟩] : UserStore) 50 1).1
    ∧ (100 : Int) < (extend_subscription_30d ([⟨1, none, 5, some 100, 0⟩] : UserStore) 50 1).1 :=
  ⟨by decide, (extend_subscription_spec ([⟨1, none, 5, some 100, 0⟩] : UserStore) 50 1).2.1,
    (extend_subscription_spec ([⟨1, none, 5, some 100, 0⟩] : UserStore) 50 1).2.2 100 (by decide)⟩

/-- C9: decrement_free_if_needed leaves the store unchanged when the user
    has an active subscription or a non-positive free counter; when the
    subscription is inactive, the counter positive and the user row
    present, it decrements the counter by exactly one; and it never drives
    a non-negative counter below zero. -/
theorem decrement_free_spec :
    (∀ (st : UserStore) (now tg : Int),
        has_active_sub (user_status st tg).2 now = true →
        decrement_free_if_needed st now tg = st)
    ∧ (∀ (st : UserStore) (now tg : Int),
        (user_status st tg).1 ≤ 0 →
        decrement_free_if_needed st now tg = st)
    ∧ (∀ (st : UserStore) (now tg : Int) (u : UserRow),
        has_active_sub (user_status st tg).2 now = false →
        0 < (user_status st tg).1 →
        st.find? (fun v => v.tg_id == tg) = some u →
        (user_status (decrement_free_if_needed st now tg) tg).1
          = (user_status st tg).1 - 1)
    ∧ (∀ (st : UserStore) (now tg : Int),
        0 ≤ (user_status st tg).1 →
        0 ≤ (user_status (decrement_free_if_needed st now tg) tg).1) := by
  have hdec : ∀ (st : UserStore) (now tg : Int) (u : UserRow),
      has_active_sub (user_status st tg).2 now = false →
      0 < (user_status st tg).1 →
      st.find? (fun v => v.tg_id == tg) = some u →
      (user_status (decrement_free_if_needed st now tg) tg).1
        = (user_status st tg).1 - 1 := by
    intro st now tg u hact hpos hfind
    have hnotle : ¬ ((user_status st tg).1 ≤ 0) := by omega
    have hu : (u.tg_id == tg) = true :=
      @List.find?_some UserRow (fun v => v.tg_id == tg) u st hfind
    have hpres : ∀ v : UserRow,
        ((if v.tg_id == tg then { v with free_left := v.free_left - 1 } else v).tg_id == tg)
          = (v.tg_id == tg) := by
      intro v
      cases hv : v.tg_id == tg with
      | true => simp [hv]
      | false => simp [hv]
    have hmap := find?_map_pres
      (fun v : UserRow => if v.tg_id == tg then { v with free_left := v.free_left - 1 } else v)
      (fun v : UserRow => v.tg_id == tg) st hpres
    simp only [decrement_free_if_needed, hact, Bool.false_eq_true, if_false, if_neg hnotle]
    simp only [user_status, hmap, hfind, Option.map_some, hu, if_true]
    have hu' : u.tg_id = tg := by simpa using hu
    simp [user_status, hfind, hu']
  refine ⟨?_, ?_, hdec, ?_⟩
  · intro st now tg h
    simp [decrement_free_if_needed, h]
  · intro st now tg h
    cases hact : has_active_sub (user_status st tg).2 now with
    | true => simp [decrement_free_if_needed, hact]
    | false => simp [decrement_free_if_needed, hact, h]
  · intro st now tg h
    cases hact : has_active_sub (user_status st tg).2 now with
    | true =>
      have hfix : decrement_free_if_needed st now tg = st := by
        simp [decrement_free_if_needed, hact]
      rw [hfix]
      exact h
    | false =>
      by_cases hle : (user_status st tg).1 ≤ 0
      · have hfix : decrement_free_if_needed st now tg = st := by
          simp [decrement_free_if_needed, hact, hle]
        rw [hfix]
        exact h
      · have hpos : 0 < (user_status st tg).1 := by omega
        cases hfind : st.find? (fun v => v.tg_id == tg) with
        | none =>
          have hfix : decrement_free_if_needed st now tg = st := by
            simp only [decrement_free_if_needed, hact, Bool.false_eq_true, if_false,
              if_neg hle]
            exact map_eq_self_of _ st (fun v hv => by
              have := List.find?_eq_none.mp hfind v hv
              simp only [Bool.not_eq_true] at this
              simp [this])
          rw [hfix]
          exact h
        | some u =>
          have := hdec st now tg u hact hpos hfind
          omega

/-- Witness for C9: user 1 has an active subscription (counter untouched),
    user 3 has none and five free signals left (counter drops to four and
    stays non-negative). -/
theorem decrement_free_spec_witness :
    decrement_free_if_needed ([⟨1, none, 5, some 100, 0⟩] : UserStore) 50 1
      = ([⟨1, none, 5, some 100, 0⟩] : UserStore)
    ∧ (user_status (decrement_free_if_needed ([⟨3, none, 5, none, 0⟩] : UserStore) 50 3) 3).1
        = (user_status ([⟨3, none, 5, none, 0⟩] : UserStore) 3).1 - 1
    ∧ 0 ≤ (user_status (decrement_free_if_needed ([⟨3, none, 5, none, 0⟩] : UserStore) 50 3) 3).1 :=
  ⟨decrement_free_spec.1 ([⟨1, none, 5, some 100, 0⟩] : UserStore) 50 1 (by decide),
    decrement_free_spec.2.2.1 ([⟨3, none, 5, none, 0⟩] : UserStore) 50 3
      ⟨3, none, 5, none, 0⟩ (by decide) (by decide) (by decide),
    decrement_free_spec.2.2.2 ([⟨3, none, 5, none, 0⟩] : UserStore) 50 3 (by decide)⟩

/-- Unfolded form of add_payment (the let bindings zeta-reduced). -/
theorem add_payment_eq (st : PaymentStore) (now tg : Int) (tx_hash : String) :
    add_payment st now tg tx_hash
      = if paymentExists st (lowerAscii tx_hash) then (false, st)
        else (true,
          { rows := st.rows ++ [pendingRow st.nextId tg (lowerAscii tx_hash) now],
            nextId := st.nextId + 1 }) := rfl

/-- C10: add_payment stores tx hashes lowercased and is atomic on
    duplicates: a call whose lowercased hash is already present returns
    False and leaves the store unchanged; a first insertion returns True
    and records a PENDING payment under the lowercased hash; and after a
    successful insertion any later call with the same hash in any letter
    case returns False and leaves the store unchanged. -/
theorem add_payment_dedup :
    (∀ (st : PaymentStore) (now tg : Int) (h : String),
        paymentExists st (lowerAscii h) = true →
        add_payment st now tg h = (false, st))
    ∧ (∀ (st : PaymentStore) (now tg : Int) (h : String),
        paymentExists st (lowerAscii h) = false →
        (add_payment st now tg h).1 = true
        ∧ ∃ p, p ∈ (add_payment st now tg h).2.rows
            ∧ p.tx_hash = lowerAscii h ∧ p.status = "PENDING" ∧ p.tg_id = tg)
    ∧ (∀ (st : PaymentStore) (now tg : Int) (h : String) (now2 tg2 : Int) (h2 : String),
        paymentExists st (lowerAscii h) = false →
        lowerAscii h2 = lowerAscii h →
        add_payment (add_payment st now tg h).2 now2 tg2 h2
          = (false, (add_payment st now tg h).2)) := by
  refine ⟨?_, ?_, ?_⟩
  · intro st now tg h hdup
    rw [add_payment_eq, hdup]
    simp
  · intro st now tg h hnew
    rw [add_payment_eq, hnew]
    simp only [Bool.false_eq_true, if_false]
    exact ⟨trivial, pendingRow st.nextId tg (lowerAscii h) now, by simp, rfl, rfl, rfl⟩
  · intro st now tg h now2 tg2 h2 hnew hsame
    have hmem : paymentExists (add_payment st now tg h).2 (lowerAscii h2) = true := by
      rw [add_payment_eq, hnew]
      simp only [Bool.false_eq_true, if_false]
      unfold paymentExists
      rw [hsame]
      simp [List.any_append, pendingRow]
    rw [add_payment_eq, hmem]
    simp

/-- Witness for C10: the hash 0xAB is inserted once, then resubmitted as
    0xab and rejected with the store unchanged. -/
theorem add_payment_dedup_witness :
    (add_payment emptyPaymentStore 0 7 "0xAB").1 = true
    ∧ (∃ p, p ∈ (add_payment emptyPaymentStore 0 7 "0xAB").2.rows
        ∧ p.tx_hash = lowerAscii "0xAB" ∧ p.status = "PENDING" ∧ p.tg_id = 7)
    ∧ add_payment (add_payment emptyPaymentStore 0 7 "0xAB").2 1 8 "0xab"
        = (false, (add_payment emptyPaymentStore 0 7 "0xAB").2) :=
  ⟨(add_payment_dedup.2.1 emptyPaymentStore 0 7 "0xAB" (by decide)).1,
    (add_payment_dedup.2.1 emptyPaymentStore 0 7 "0xAB" (by decide)).2,
    add_payment_dedup.2.2 emptyPaymentStore 0 7 "0xAB" 1 8 "0xab" (by decide) (by decide)⟩

/-! ### Claims about signal creation and closing (sequential) -/

/-- Unfolded form of create_active_signal (the let bindings zeta-reduced). -/
theorem create_active_signal_eq (st : SignalStore) (now : Int)
    (symbol timeframe direction entry tp sl : String) (note : Option String) :
    create_active_signal st now symbol timeframe direction entry tp sl note
      = if existsActive st (upperAscii symbol) then (none, st)
        else (some st.nextId,
          { rows := st.rows ++
              [mkSignalRow st.nextId now symbol timeframe direction entry tp sl note],
            nextId := st.nextId + 1 }) := rfl

/-- C5: when an ACTIVE signal already exists for the (uppercased) symbol,
    create_active_signal returns None and the signals store is left exactly
    as it was: no row inserted, no row modified. -/
theorem create_rejects_without_side_effects (st : SignalStore) (now : Int)
    (symbol timeframe direction entry tp sl : String) (note : Option String)
    (h : existsActive st (upperAscii symbol) = true) :
    create_active_signal st now symbol timeframe direction entry tp sl note = (none, st) := by
  rw [create_active_signal_eq, h]
  simp

/-- Witness for C5: a second EURUSD signal is rejected while the first is
    still ACTIVE, leaving the store untouched. -/
theorem create_rejects_without_side_effects_witness :
    existsActive (create_active_signal emptySignalStore 0 "EURUSD" "5M" "BUY" "100" "110" "90" none).2
      (upperAscii "eurusd") = true
    ∧ create_active_signal
        (create_active_signal emptySignalStore 0 "EURUSD" "5M" "BUY" "100" "110" "90" none).2
        1 "eurusd" "15M" "SELL" "101" "95" "105" none
      = (none, (create_active_signal emptySignalStore 0 "EURUSD" "5M" "BUY" "100" "110" "90" none).2) :=
  ⟨by decide,
    create_rejects_without_side_effects
      (create_active_signal emptySignalStore 0 "EURUSD" "5M" "BUY" "100" "110" "90" none).2
      1 "eurusd" "15M" "SELL" "101" "95" "105" none (by decide)⟩

/-- closeRow on a row matched by the UPDATE WHERE clause. -/
theorem closeRow_of_match (now : Int) (sig_id : Nat) (reason : String) (b : Int)
    (r : SignalRow) (h : (r.id == sig_id && r.status == "ACTIVE") = true) :
    closeRow now sig_id reason b r
      = { r with status := "CLOSED", closed_at := some now,
                 close_reason := some reason, closed_by := some b } := by
  simp only [closeRow, h, if_true]

/-- closeRow on a row the UPDATE WHERE clause does not match. -/
theorem closeRow_of_nomatch (now : Int) (sig_id : Nat) (reason : String) (b : Int)
    (r : SignalRow) (h : (r.id == sig_id && r.status == "ACTIVE") = false) :
    closeRow now sig_id reason b r = r := by
  simp only [closeRow, h, Bool.false_eq_true, if_false]

/-- closeRow never changes the id of a row. -/
theorem closeRow_id (now : Int) (sig_id : Nat) (reason : String) (b : Int) (r : SignalRow) :
    (closeRow now sig_id reason b r).id = r.id := by
  unfold closeRow
  split <;> rfl

/-- C7: signals are never deleted and close_signal is frame-exact: the row
    count and nextId are preserved, every row keeps its id, symbol,
    timeframe, direction, entry, tp, sl, note and sent_at; a row not
    matching (id, ACTIVE) is completely unchanged, and the matched row only
    has its status, closed_at, close_reason and closed_by fields set. -/
theorem close_signal_frame (st : SignalStore) (now : Int) (sig_id : Nat)
    (reason : String) (closed_by : Int) :
    ((close_signal st now sig_id reason closed_by).rows.length = st.rows.length
      ∧ (close_signal st now sig_id reason closed_by).nextId = st.nextId)
    ∧ (∀ (j : Nat) (r : SignalRow), st.rows[j]? = some r →
        ∃ r', (close_signal st now sig_id reason closed_by).rows[j]? = some r'
          ∧ r'.id = r.id ∧ r'.symbol = r.symbol ∧ r'.timeframe = r.timeframe
          ∧ r'.direction = r.direction ∧ r'.entry = r.entry ∧ r'.tp = r.tp
          ∧ r'.sl = r.sl ∧ r'.note = r.note ∧ r'.sent_at = r.sent_at
          ∧ (¬ (r.id = sig_id ∧ r.status = "ACTIVE") → r' = r)
          ∧ (r.id = sig_id ∧ r.status = "ACTIVE" →
              r'.status = "CLOSED" ∧ r'.closed_at = some now
              ∧ r'.close_reason = some reason ∧ r'.closed_by = some closed_by)) := by
  refine ⟨⟨List.length_map _ _, rfl⟩, ?_⟩
  intro j r hj
  refine ⟨closeRow now sig_id reason closed_by r, ?_, ?_⟩
  · show (st.rows.map (closeRow now sig_id reason closed_by))[j]? = _
    rw [List.getElem?_map, hj]
    rfl
  · cases hm : (r.id == sig_id && r.status == "ACTIVE") with
    | true =>
      rw [closeRow_of_match now sig_id reason closed_by r hm]
      have hm' : r.id = sig_id ∧ r.status = "ACTIVE" := by
        simpa [Bool.and_eq_true] using hm
      exact ⟨rfl, rfl, rfl, rfl, rfl, rfl, rfl, rfl, rfl,
        fun hn => absurd hm' hn, fun _ => ⟨rfl, rfl, rfl, rfl⟩⟩
    | false =>
      rw [closeRow_of_nomatch now sig_id reason closed_by r hm]
      refine ⟨rfl, rfl, rfl, rfl, rfl, rfl, rfl, rfl, rfl, fun _ => rfl, fun hc => ?_⟩
      exfalso
      have : (r.id == sig_id && r.status == "ACTIVE") = true := by
        simp [Bool.and_eq_true, hc.1, hc.2]
      rw [this] at hm
      cases hm

/-- A concrete signal row used to witness the close frame property. -/
def frameRow : SignalRow := mkSignalRow 1 0 "EURUSD" "5M" "BUY" "100" "110" "90" none

/-- A concrete one-signal store used to witness the close frame property. -/
def frameStore : SignalStore := { rows := [frameRow], nextId := 2 }

/-- Witness for C7 at a concrete store: closing the single ACTIVE EURUSD
    row by TP keeps the row in place with only its close fields set. -/
theorem close_signal_frame_witness :
    frameStore.rows[0]? = some frameRow
    ∧ ∃ r', (close_signal frameStore 5 1 "TP" 9).rows[0]? = some r'
        ∧ r'.id = frameRow.id ∧ r'.symbol = frameRow.symbol
        ∧ r'.timeframe = frameRow.timeframe ∧ r'.direction = frameRow.direction
        ∧ r'.entry = frameRow.entry ∧ r'.tp = frameRow.tp
        ∧ r'.sl = frameRow.sl ∧ r'.note = frameRow.note
        ∧ r'.sent_at = frameRow.sent_at
        ∧ (¬ (frameRow.id = 1 ∧ frameRow.status = "ACTIVE") → r' = frameRow)
        ∧ (frameRow.id = 1 ∧ frameRow.status = "ACTIVE" →
            r'.status = "CLOSED" ∧ r'.closed_at = some 5
            ∧ r'.close_reason = some "TP" ∧ r'.closed_by = some 9) :=
  ⟨rfl, (close_signal_frame frameStore 5 1 "TP" 9).2 0 frameRow rfl⟩

/-- Looking a signal up by id after close_signal sees the closeRow image of
    the original lookup: the UPDATE preserves ids. -/
theorem get_signal_by_id_close (st : SignalStore) (now : Int) (sig_id : Nat)
    (reason : String) (b : Int) (sig_id2 : Nat) :
    get_signal_by_id (close_signal st now sig_id reason b) sig_id2
      = (get_signal_by_id st sig_id2).map (closeRow now sig_id reason b) := by
  unfold get_signal_by_id close_signal close_signal_count
  exact find?_map_pres _ _ _ (fun r => by rw [closeRow_id])

/-- C4: close is idempotent from the caller's perspective: on an ACTIVE
    signal the first close call closes the row and emits exactly one close
    notification per user; a subsequent close call on the same id returns
    the already-closed rejection, emits nothing and leaves the store
    unchanged. -/
theorem close_idempotent (st : SignalStore) (users : List Int) (now now2 : Int)
    (sig_id : Nat) (reason reason2 : String) (adm adm2 : Int) (r : SignalRow)
    (hfind : get_signal_by_id st sig_id = some r) (hact : r.status = "ACTIVE") :
    close_inline st users now sig_id reason adm
      = (close_signal st now sig_id reason adm,
         users.map (fun u => (u, r.symbol, reason)), CloseOutcome.closedOk)
    ∧ get_signal_by_id (close_signal st now sig_id reason adm) sig_id
        = some { r with status := "CLOSED", closed_at := some now,
                        close_reason := some reason, closed_by := some adm }
    ∧ close_inline (close_signal st now sig_id reason adm) users now2 sig_id reason2 adm2
        = (close_signal st now sig_id reason adm, [], CloseOutcome.alreadyClosed) := by
  have hfind' : st.rows.find? (fun x => x.id == sig_id) = some r := hfind
  have hid : (r.id == sig_id) = true :=
    @List.find?_some SignalRow (fun x => x.id == sig_id) r st.rows hfind'
  have h2 : get_signal_by_id (close_signal st now sig_id reason adm) sig_id
      = some { r with status := "CLOSED", closed_at := some now,
                      close_reason := some reason, closed_by := some adm } := by
    rw [get_signal_by_id_close, hfind]
    have hcr := closeRow_of_match now sig_id reason adm r (by simp [hid, hact])
    simp [hcr]
  refine ⟨?_, h2, ?_⟩
  · simp only [close_inline, hfind]
    simp [hact]
  · simp only [close_inline, h2]
    simp

/-- Witness for C4 at a concrete store: the first TP close of the single
    ACTIVE signal notifies user 7 once; the second close is rejected with
    no notification and no store change. -/
theorem close_idempotent_witness :
    get_signal_by_id frameStore 1 = some frameRow
    ∧ frameRow.status = "ACTIVE"
    ∧ close_inline frameStore [7] 5 1 "TP" 9
        = (close_signal frameStore 5 1 "TP" 9,
           [7].map (fun u => (u, frameRow.symbol, "TP")), CloseOutcome.closedOk)
    ∧ close_inline (close_signal frameStore 5 1 "TP" 9) [7] 6 1 "SL" 9
        = (close_signal frameStore 5 1 "TP" 9, [], CloseOutcome.alreadyClosed) :=
  ⟨by decide, rfl,
    (close_idempotent frameStore [7] 5 6 1 "TP" "SL" 9 9 frameRow (by decide) rfl).1,
    (close_idempotent frameStore [7] 5 6 1 "TP" "SL" 9 9 frameRow (by decide) rfl).2.2⟩

/-! ### C6: the creation path does not enforce the price-ordering invariant -/

/-- C6 counterexample: the admin draft EURUSD;5M;BUY;100;90;110 passes
    make_draft validation and create_active_signal admits it as an ACTIVE
    BUY signal although its take-profit (90) is below its entry (100),
    violating the Long ordering take-profit over entry over stop-loss. -/
theorem create_admits_misordered_signal :
    make_draft "EURUSD;5M;BUY;100;90;110"
      = some ["EURUSD", "5M", "BUY", "100", "90", "110"]
    ∧ (create_active_signal emptySignalStore 0 "EURUSD" "5M" "BUY" "100" "90" "110" none).1
        = some 1
    ∧ (∃ r, r ∈ (create_active_signal emptySignalStore 0
          "EURUSD" "5M" "BUY" "100" "90" "110" none).2.rows
        ∧ r.direction = "BUY" ∧ r.status = "ACTIVE"
        ∧ buyOrderingHolds r.entry r.tp r.sl = false) := by
  refine ⟨by decide, by decide, ?_⟩
  exact ⟨mkSignalRow 1 0 "EURUSD" "5M" "BUY" "100" "90" "110" none,
    by decide, by decide, by decide, by decide⟩

/-- C6 amended: the creation path validates only that a draft has at least
    6 fields and direction BUY or SELL; entry, take-profit and stop-loss
    are stored verbatim with no ordering check, so any price texts are
    admitted into an ACTIVE signal when the gate is open. -/
theorem draft_validation_characterization :
    (∀ (text : String) (parts : List String), make_draft text = some parts →
        6 ≤ parts.length
        ∧ (upperAscii (parts.getD 2 "") = "BUY" ∨ upperAscii (parts.getD 2 "") = "SELL"))
    ∧ (∀ (st : SignalStore) (now : Int) (symbol timeframe direction entry tp sl : String)
        (note : Option String), existsActive st (upperAscii symbol) = false →
        (create_active_signal st now symbol timeframe direction entry tp sl note).1
          = some st.nextId
        ∧ ∃ r, r ∈ (create_active_signal st now symbol timeframe direction entry tp sl note).2.rows
            ∧ r.entry = entry ∧ r.tp = tp ∧ r.sl = sl
            ∧ r.direction = upperAscii direction ∧ r.status = "ACTIVE") := by
  constructor
  · intro text parts h
    simp only [make_draft] at h
    split at h
    · cases h
    · rename_i h6
      split at h
      · rename_i hdir
        injection h with hp
        subst hp
        refine ⟨by omega, ?_⟩
        simp only [Bool.or_eq_true, beq_iff_eq] at hdir
        exact hdir
      · cases h
  · intro st now symbol timeframe direction entry tp sl note hne
    rw [create_active_signal_eq, hne]
    simp only [Bool.false_eq_true, if_false]
    exact ⟨trivial, mkSignalRow st.nextId now symbol timeframe direction entry tp sl note,
      by simp, rfl, rfl, rfl, rfl, rfl⟩

/-- Witness for the C6 amended claim: the misordered BUY draft is accepted
    and inserted verbatim from the empty store. -/
theorem draft_validation_characterization_witness :
    (6 ≤ (["EURUSD", "5M", "BUY", "100", "90", "110"] : List String).length
      ∧ (upperAscii ((["EURUSD", "5M", "BUY", "100", "90", "110"] : List String).getD 2 "") = "BUY"
        ∨ upperAscii ((["EURUSD", "5M", "BUY", "100", "90", "110"] : List String).getD 2 "") = "SELL"))
    ∧ ((create_active_signal emptySignalStore 0 "EURUSD" "5M" "BUY" "100" "90" "110" none).1
        = some emptySignalStore.nextId
      ∧ ∃ r, r ∈ (create_active_signal emptySignalStore 0
            "EURUSD" "5M" "BUY" "100" "90" "110" none).2.rows
          ∧ r.entry = "100" ∧ r.tp = "90" ∧ r.sl = "110"
          ∧ r.direction = upperAscii "BUY" ∧ r.status = "ACTIVE") :=
  ⟨draft_validation_characterization.1 "EURUSD;5M;BUY;100;90;110"
      ["EURUSD", "5M", "BUY", "100", "90", "110"] (by decide),
    draft_validation_characterization.2 emptySignalStore 0
      "EURUSD" "5M" "BUY" "100" "90" "110" none (by decide)⟩

/-! ### C1: at most one ACTIVE signal per symbol in every reachable store -/

/-- A row that is ACTIVE for a symbol after the close UPDATE was already
    ACTIVE for it before: closing can only retire rows. -/
theorem isActiveFor_closeRow (sym : String) (now : Int) (sig_id : Nat)
    (reason : String) (b : Int) (r : SignalRow) :
    isActiveFor sym (closeRow now sig_id reason b r) = true → isActiveFor sym r = true := by
  unfold closeRow
  split
  · intro h
    exfalso
    simp [isActiveFor] at h
  · exact fun h => h

/-- close_signal never increases the number of ACTIVE rows of any symbol. -/
theorem activeCount_close_le (st : SignalStore) (now : Int) (sig_id : Nat)
    (reason : String) (b : Int) (sym : String) :
    activeCount (close_signal st now sig_id reason b) sym ≤ activeCount st sym := by
  unfold activeCount close_signal close_signal_count
  rw [List.countP_map]
  exact List.countP_mono_left
    (fun r _ h => isActiveFor_closeRow sym now sig_id reason b r h)

/-- C1: every signal-store state reachable from the empty table through
    completed create_active_signal and close_signal operations (the only
    writers of the signals table, create being the operation behind the
    approve gate) has at most one ACTIVE row per symbol. -/
theorem uniqueActive_of_reachable (st : SignalStore) (h : SignalsReachable st)
    (sym : String) : activeCount st sym ≤ 1 := by
  induction h with
  | init => simp [activeCount, emptySignalStore]
  | create st0 now symbol timeframe direction entry tp sl note hr ih =>
    rw [create_active_signal_eq]
    cases hex : existsActive st0 (upperAscii symbol) with
    | true => simpa [hex] using ih
    | false =>
      simp only [hex, Bool.false_eq_true, if_false]
      show List.countP (isActiveFor sym) (st0.rows ++ [mkSignalRow st0.nextId now
        symbol timeframe direction entry tp sl note]) ≤ 1
      rw [List.countP_append]
      by_cases hsym : upperAscii symbol = sym
      · have h0 : st0.rows.countP (isActiveFor sym) = 0 := by
          apply List.countP_eq_zero.mpr
          intro a ha
          have := List.any_eq_false.mp hex a ha
          rw [hsym] at this
          exact this
        have h1 : List.countP (isActiveFor sym)
            [mkSignalRow st0.nextId now symbol timeframe direction entry tp sl note] ≤ 1 := by
          cases hp : isActiveFor sym (mkSignalRow st0.nextId now
              symbol timeframe direction entry tp sl note) with
          | true => rw [List.countP_cons_of_pos _ _ hp, List.countP_nil]
          | false =>
            rw [List.countP_cons_of_neg _ _ (by simp [hp]), List.countP_nil]
            omega
        omega
      · have h1 : List.countP (isActiveFor sym)
            [mkSignalRow st0.nextId now symbol timeframe direction entry tp sl note] = 0 := by
          have hne : (upperAscii symbol == sym) = false := by
            simpa using hsym
          rw [List.countP_cons_of_neg, List.countP_nil]
          simp [isActiveFor, mkSignalRow, hne]
        have h2 : st0.rows.countP (isActiveFor sym) ≤ 1 := ih
        omega
  | close st0 now sig_id reason closed_by hr ih =>
    exact le_trans (activeCount_close_le st0 now sig_id reason closed_by sym) ih

/-- Witness for C1: the store produced by one successful create from the
    empty table is reachable and holds at most one ACTIVE EURUSD row. -/
theorem uniqueActive_of_reachable_witness :
    SignalsReachable
      (create_active_signal emptySignalStore 0 "EURUSD" "5M" "BUY" "100" "110" "90" none).2
    ∧ activeCount
        (create_active_signal emptySignalStore 0 "EURUSD" "5M" "BUY" "100" "110" "90" none).2
        "EURUSD" ≤ 1 :=
  ⟨SignalsReachable.create emptySignalStore 0 "EURUSD" "5M" "BUY" "100" "110" "90" none
      SignalsReachable.init,
    uniqueActive_of_reachable _
      (SignalsReachable.create emptySignalStore 0 "EURUSD" "5M" "BUY" "100" "110" "90" none
        SignalsReachable.init) "EURUSD"⟩

/-! ### C2: the check-then-insert race of create_active_signal -/

/-- C2 fails on the code: two racing create_active_signal calls for EURUSD,
    interleaved so that both gating SELECTs run before either INSERT (the
    schedule check1, check2, insert1, insert2, possible because every
    statement is awaited on the shared event loop and no lock or
    transaction spans the check and the insert), BOTH succeed: each returns
    a fresh rowid and the store ends with two ACTIVE EURUSD rows, violating
    the exactly-one-succeeds requirement. -/
theorem create_race_both_succeed :
    (runCreatePair 0 ⟨"EURUSD", "5M", "BUY", "100", "110", "90", none⟩
        ⟨"EURUSD", "15M", "SELL", "101", "95", "105", none⟩
        [false, true, false, true]
        { store := emptySignalStore, p1 := CreateProc.start, p2 := CreateProc.start }).p1
      = CreateProc.finished (some 1)
    ∧ (runCreatePair 0 ⟨"EURUSD", "5M", "BUY", "100", "110", "90", none⟩
        ⟨"EURUSD", "15M", "SELL", "101", "95", "105", none⟩
        [false, true, false, true]
        { store := emptySignalStore, p1 := CreateProc.start, p2 := CreateProc.start }).p2
      = CreateProc.finished (some 2)
    ∧ activeCount
        (runCreatePair 0 ⟨"EURUSD", "5M", "BUY", "100", "110", "90", none⟩
          ⟨"EURUSD", "15M", "SELL", "101", "95", "105", none⟩
          [false, true, false, true]
          { store := emptySignalStore, p1 := CreateProc.start, p2 := CreateProc.start }).store
        "EURUSD" = 2 := by
  decide

/-- Serialized runs of the same two calls agree with create_active_signal
    itself: when the first call completes before the second starts, the
    second is rejected — the race above is strictly an interleaving
    artifact. -/
theorem create_serialized_one_succeeds :
    (runCreatePair 0 ⟨"EURUSD", "5M", "BUY", "100", "110", "90", none⟩
        ⟨"EURUSD", "15M", "SELL", "101", "95", "105", none⟩
        [false, false, true, true]
        { store := emptySignalStore, p1 := CreateProc.start, p2 := CreateProc.start }).p1
      = CreateProc.finished (some 1)
    ∧ (runCreatePair 0 ⟨"EURUSD", "5M", "BUY", "100", "110", "90", none⟩
        ⟨"EURUSD", "15M", "SELL", "101", "95", "105", none⟩
        [false, false, true, true]
        { store := emptySignalStore, p1 := CreateProc.start, p2 := CreateProc.start }).p2
      = CreateProc.finished none
    ∧ activeCount
        (runCreatePair 0 ⟨"EURUSD", "5M", "BUY", "100", "110", "90", none⟩
          ⟨"EURUSD", "15M", "SELL", "101", "95", "105", none⟩
          [false, false, true, true]
          { store := emptySignalStore, p1 := CreateProc.start, p2 := CreateProc.start }).store
        "EURUSD" = 1 := by
  decide

/-! ### C3: close only transitions ACTIVE rows, and racing closes exclude -/

/-- An unfinished close call has not changed any row yet. -/
theorem changedOf_unfinished (p : CloseProc) (h : closeFinished p = false) :
    changedOf p = 0 := by
  cases p with
  | start => rfl
  | sawActive => rfl
  | finished r n => simp [closeFinished] at h

/-- The UPDATE of close_signal preserves how many rows carry any id. -/
theorem countById_close_signal_count (st : SignalStore) (now : Int) (sig_id : Nat)
    (reason : String) (adm : Int) (i : Nat) :
    countById (close_signal_count st now sig_id reason adm).1 i = countById st i := by
  unfold countById close_signal_count
  rw [List.countP_map]
  have hfun : ((fun r : SignalRow => r.id == i) ∘ closeRow now sig_id reason adm)
      = fun r : SignalRow => r.id == i := by
    funext r
    show ((closeRow now sig_id reason adm r).id == i) = (r.id == i)
    rw [closeRow_id]
  rw [hfun]

/-- After the UPDATE of close_signal no row with the targeted id is ACTIVE:
    a matched row was closed, an unmatched row was not ACTIVE. -/
theorem activeCountById_after_update (st : SignalStore) (now : Int) (sig_id : Nat)
    (reason : String) (adm : Int) :
    activeCountById (close_signal_count st now sig_id reason adm).1 sig_id = 0 := by
  unfold activeCountById close_signal_count
  rw [List.countP_map]
  apply List.countP_eq_zero.mpr
  intro r hr
  show ¬ (((closeRow now sig_id reason adm r).id == sig_id
      && (closeRow now sig_id reason adm r).status == "ACTIVE") = true)
  cases hm : (r.id == sig_id && r.status == "ACTIVE") with
  | true =>
    rw [closeRow_of_match now sig_id reason adm r hm]
    simp
  | false =>
    rw [closeRow_of_nomatch now sig_id reason adm r hm]
    simp [hm]

/-- The rowcount of the UPDATE of close_signal is the number of ACTIVE rows
    carrying the targeted id. -/
theorem close_signal_count_snd (st : SignalStore) (now : Int) (sig_id : Nat)
    (reason : String) (adm : Int) :
    (close_signal_count st now sig_id reason adm).2 = activeCountById st sig_id := rfl

/-- When some row carries the id, the SELECT by id finds one. -/
theorem get_signal_by_id_isSome (st : SignalStore) (sig_id : Nat)
    (hc : countById st sig_id = 1) : ∃ r, get_signal_by_id st sig_id = some r := by
  cases hf : get_signal_by_id st sig_id with
  | some r => exact ⟨r, rfl⟩
  | none =>
    exfalso
    unfold get_signal_by_id at hf
    have h0 : countById st sig_id = 0 := by
      unfold countById
      exact List.countP_eq_zero.mpr (List.find?_eq_none.mp hf)
    omega

/-- The invariant coupling the store and the two racing close calls: the
    targeted id names exactly one row throughout; while that row is ACTIVE
    neither call has returned, and once it is not, exactly one UPDATE has
    matched a row across both calls. -/
def ClosePairInv (sig_id : Nat) (s : ClosePairState) : Prop :=
  countById s.store sig_id = 1
  ∧ ((activeCountById s.store sig_id = 1
        ∧ closeFinished s.p1 = false ∧ closeFinished s.p2 = false)
    ∨ (activeCountById s.store sig_id = 0
        ∧ changedOf s.p1 + changedOf s.p2 = 1))

/-- One atomic step of either close call preserves the coupling invariant
    (stated for the stepping call p against the passive call q). -/
theorem closeStep_inv_core (st : SignalStore) (p q : CloseProc) (now : Int)
    (reason : String) (adm : Int) (sig_id : Nat)
    (hc : countById st sig_id = 1)
    (hAB : (activeCountById st sig_id = 1
        ∧ closeFinished p = false ∧ closeFinished q = false)
      ∨ (activeCountById st sig_id = 0 ∧ changedOf p + changedOf q = 1)) :
    countById (closeStep now sig_id reason adm st p).1 sig_id = 1
    ∧ ((activeCountById (closeStep now sig_id reason adm st p).1 sig_id = 1
          ∧ closeFinished (closeStep now sig_id reason adm st p).2 = false
          ∧ closeFinished q = false)
      ∨ (activeCountById (closeStep now sig_id reason adm st p).1 sig_id = 0
          ∧ changedOf (closeStep now sig_id reason adm st p).2 + changedOf q = 1)) := by
  cases p with
  | finished r n => exact ⟨hc, hAB⟩
  | start =>
    obtain ⟨r, hf⟩ := get_signal_by_id_isSome st sig_id hc
    have hfr : st.rows.find? (fun x => x.id == sig_id) = some r := hf
    rcases hAB with ⟨ha, hp, hq⟩ | ⟨ha, hsum⟩
    · have hact : (r.status == "ACTIVE") = true := by
        apply find?_unique_sat st.rows (fun x => x.id == sig_id)
          (fun x => x.status == "ACTIVE") r hc _ hfr
        exact ha
      simp only [closeStep, hf, hact, if_true]
      exact ⟨hc, Or.inl ⟨ha, rfl, hq⟩⟩
    · have hact : (r.status == "ACTIVE") = false := by
        apply find?_none_sat st.rows (fun x => x.id == sig_id)
          (fun x => x.status == "ACTIVE") r _ hfr
        exact ha
      simp only [closeStep, hf, hact, Bool.false_eq_true, if_false]
      exact ⟨hc, Or.inr ⟨ha, hsum⟩⟩
  | sawActive =>
    simp only [closeStep]
    refine ⟨countById_close_signal_count st now sig_id reason adm sig_id ▸ hc, Or.inr ?_⟩
    refine ⟨activeCountById_after_update st now sig_id reason adm, ?_⟩
    rcases hAB with ⟨ha, hp, hq⟩ | ⟨ha, hsum⟩
    · show (close_signal_count st now sig_id reason adm).2 + changedOf q = 1
      rw [close_signal_count_snd, ha, changedOf_unfinished q hq]
    · show (close_signal_count st now sig_id reason adm).2 + changedOf q = 1
      rw [close_signal_count_snd, ha]
      have h0 : changedOf CloseProc.sawActive = 0 := rfl
      omega

/-- A scheduler step preserves the coupling invariant. -/
theorem closeStepOne_inv (now1 : Int) (reason1 : String) (adm1 : Int)
    (now2 : Int) (reason2 : String) (adm2 : Int) (sig_id : Nat) (b : Bool)
    (s : ClosePairState) (h : ClosePairInv sig_id s) :
    ClosePairInv sig_id (closeStepOne now1 reason1 adm1 now2 reason2 adm2 sig_id b s) := by
  obtain ⟨hc, hAB⟩ := h
  cases b with
  | false =>
    have := closeStep_inv_core s.store s.p1 s.p2 now1 reason1 adm1 sig_id hc hAB
    exact ⟨this.1, this.2⟩
  | true =>
    have hAB2 : (activeCountById s.store sig_id = 1
          ∧ closeFinished s.p2 = false ∧ closeFinished s.p1 = false)
        ∨ (activeCountById s.store sig_id = 0
          ∧ changedOf s.p2 + changedOf s.p1 = 1) := by
      rcases hAB with ⟨ha, hp, hq⟩ | ⟨ha, hsum⟩
      · exact Or.inl ⟨ha, hq, hp⟩
      · exact Or.inr ⟨ha, by omega⟩
    have core := closeStep_inv_core s.store s.p2 s.p1 now2 reason2 adm2 sig_id hc hAB2
    show ClosePairInv sig_id
      { store := (closeStep now2 sig_id reason2 adm2 s.store s.p2).1,
        p1 := s.p1, p2 := (closeStep now2 sig_id reason2 adm2 s.store s.p2).2 }
    refine ⟨core.1, ?_⟩
    rcases core.2 with ⟨ha, hp, hq⟩ | ⟨ha, hsum⟩
    · exact Or.inl ⟨ha, hq, hp⟩
    · refine Or.inr ⟨ha, ?_⟩
      show changedOf s.p1 + changedOf (closeStep now2 sig_id reason2 adm2 s.store s.p2).2 = 1
      omega

/-- Any schedule preserves the coupling invariant. -/
theorem runClosePair_inv (now1 : Int) (reason1 : String) (adm1 : Int)
    (now2 : Int) (reason2 : String) (adm2 : Int) (sig_id : Nat)
    (sched : List Bool) (s : ClosePairState) (h : ClosePairInv sig_id s) :
    ClosePairInv sig_id
      (runClosePair now1 reason1 adm1 now2 reason2 adm2 sig_id sched s) := by
  induction sched generalizing s with
  | nil => exact h
  | cons b rest ih =>
    exact ih _ (closeStepOne_inv now1 reason1 adm1 now2 reason2 adm2 sig_id b s h)

/-- C3: the close path transitions a signal only from ACTIVE: a close
    attempted on a signal that is not ACTIVE returns the already-closed
    rejection, writes nothing and notifies nobody; the UPDATE of
    close_signal is a no-op when the target is not ACTIVE; and for two
    racing close calls on one ACTIVE signal, under every interleaving in
    which both calls have returned, exactly one UPDATE changed the row and
    the row ended not ACTIVE. -/
theorem close_only_active_and_race_exclusive :
    (∀ (st : SignalStore) (users : List Int) (now : Int) (sig_id : Nat)
        (reason : String) (adm : Int) (r : SignalRow),
        get_signal_by_id st sig_id = some r → r.status ≠ "ACTIVE" →
        close_inline st users now sig_id reason adm = (st, [], CloseOutcome.alreadyClosed))
    ∧ (∀ (st : SignalStore) (now : Int) (sig_id : Nat) (reason : String) (adm : Int),
        activeCountById st sig_id = 0 →
        close_signal st now sig_id reason adm = st)
    ∧ (∀ (st : SignalStore) (now1 now2 : Int) (reason1 reason2 : String)
        (adm1 adm2 : Int) (sig_id : Nat) (sched : List Bool),
        countById st sig_id = 1 → activeCountById st sig_id = 1 →
        closeFinished (runClosePair now1 reason1 adm1 now2 reason2 adm2 sig_id sched
          { store := st, p1 := CloseProc.start, p2 := CloseProc.start }).p1 = true →
        closeFinished (runClosePair now1 reason1 adm1 now2 reason2 adm2 sig_id sched
          { store := st, p1 := CloseProc.start, p2 := CloseProc.start }).p2 = true →
        changedOf (runClosePair now1 reason1 adm1 now2 reason2 adm2 sig_id sched
            { store := st, p1 := CloseProc.start, p2 := CloseProc.start }).p1
          + changedOf (runClosePair now1 reason1 adm1 now2 reason2 adm2 sig_id sched
            { store := st, p1 := CloseProc.start, p2 := CloseProc.start }).p2 = 1
        ∧ activeCountById (runClosePair now1 reason1 adm1 now2 reason2 adm2 sig_id sched
            { store := st, p1 := CloseProc.start, p2 := CloseProc.start }).store sig_id
          = 0) := by
  refine ⟨?_, ?_, ?_⟩
  · intro st users now sig_id reason adm r hf hne
    have hact : (r.status == "ACTIVE") = false := by
      simpa using hne
    simp only [close_inline, hf, hact, Bool.false_eq_true, if_false]
  · intro st now sig_id reason adm h0
    unfold close_signal close_signal_count
    have hrows : st.rows.map (closeRow now sig_id reason adm) = st.rows := by
      apply map_eq_self_of
      intro r hr
      apply closeRow_of_nomatch
      cases hm : (r.id == sig_id && r.status == "ACTIVE") with
      | false => rfl
      | true =>
        exfalso
        have := List.countP_eq_zero.mp h0 r hr
        rw [hm] at this
        exact this rfl
    rw [hrows]
  · intro st now1 now2 reason1 reason2 adm1 adm2 sig_id sched hc ha h1 h2
    have hinv := runClosePair_inv now1 reason1 adm1 now2 reason2 adm2 sig_id sched
      { store := st, p1 := CloseProc.start, p2 := CloseProc.start }
      ⟨hc, Or.inl ⟨ha, rfl, rfl⟩⟩
    rcases hinv.2 with ⟨_, hp, _⟩ | ⟨hact, hsum⟩
    · rw [h1] at hp
      cases hp
    · exact ⟨hsum, hact⟩

/-- Witness for C3: a close on the already-closed store is rejected with no
    write; the no-op UPDATE leaves the store untouched; and for the
    serialized schedule of two racing closes on the ACTIVE store exactly
    one UPDATE changes the row. -/
theorem close_only_active_and_race_exclusive_witness :
    close_inline (close_signal frameStore 5 1 "TP" 9) [7] 6 1 "SL" 9
      = (close_signal frameStore 5 1 "TP" 9, [], CloseOutcome.alreadyClosed)
    ∧ close_signal (close_signal frameStore 5 1 "TP" 9) 6 1 "SL" 9
      = close_signal frameStore 5 1 "TP" 9
    ∧ (changedOf (runClosePair 5 "TP" 9 6 "SL" 9 1 [false, false, true, true]
          { store := frameStore, p1 := CloseProc.start, p2 := CloseProc.start }).p1
        + changedOf (runClosePair 5 "TP" 9 6 "SL" 9 1 [false, false, true, true]
          { store := frameStore, p1 := CloseProc.start, p2 := CloseProc.start }).p2 = 1
      ∧ activeCountById (runClosePair 5 "TP" 9 6 "SL" 9 1 [false, false, true, true]
          { store := frameStore, p1 := CloseProc.start, p2 := CloseProc.start }).store 1
        = 0) :=
  ⟨close_only_active_and_race_exclusive.1 (close_signal frameStore 5 1 "TP" 9) [7] 6 1 "SL" 9
      (closeRow 5 1 "TP" 9 frameRow) (by decide) (by decide),
    close_only_active_and_race_exclusive.2.1 (close_signal frameStore 5 1 "TP" 9) 6 1 "SL" 9
      (by decide),
    close_only_active_and_race_exclusive.2.2 frameStore 5 6 "TP" "SL" 9 9 1
      [false, false, true, true] (by decide) (by decide) (by decide) (by decide)⟩

end ForexBot

section SanityChecks
open ForexBot
example : (add_payment emptyPaymentStore 0 7 "0xAB").1 = true := by decide
example :
    (add_payment (add_payment emptyPaymentStore 0 7 "0xAB").2 1 8 "0xab").1 = false := by
  decide
example : has_active_sub (some 10) 3 = true := by decide
example :
    (extend_subscription_30d ([⟨1, none, 5, some 100, 0⟩] : UserStore) 50 1).1
      = 100 + day30 := by decide
example :
    decrement_free_if_needed ([⟨1, none, 5, none, 0⟩] : UserStore) 50 1
      = [⟨1, none, 4, none, 0⟩] := by decide
example :
    make_draft "EURUSD;5M;BUY;100;90;110"
      = some ["EURUSD", "5M", "BUY", "100", "90", "110"] := by decide
example : make_draft "EURUSD;5M;HOLD;100;90;110" = none := by decide
example : make_draft "EURUSD;5M;BUY" = none := by decide
example :
    (create_active_signal emptySignalStore 0 "eurusd" "5m" "buy" "100" "90" "110" none).1
      = some 1 := by decide
example :
    activeCount
      (create_active_signal emptySignalStore 0 "eurusd" "5m" "buy" "100" "90" "110" none).2
      "EURUSD" = 1 := by decide
example : buyOrderingHolds "100" "90" "110" = false := by decide
example : buyOrderingHolds "100" "110" "90" = true := by decide
example :
    (close_inline
      (create_active_signal emptySignalStore 0 "eurusd" "5m" "buy" "100" "90" "110" none).2
      [7, 8] 5 1 "TP" 99).2.1
      = [(7, "EURUSD", "TP"), (8, "EURUSD", "TP")] := by decide
end SanityChecks
